import Mathlib

/-!
Shallow embedding of the deadlinks link checker (deadlinks.py): the
outcome classifier `get_status_code`, the sqlite-backed URL cache
(`init_cache` / `get_cached_status` / `update_cache`), the two anchor
annotators `on_connection_error` / `on_access_error`, and the document
processor `content_object_init`.  The HTTP client, HTML parsing and
serialization are external capabilities and are passed in as functions.
-/

namespace Deadlinks

/-- Python tri-state as used for availability and success: `yes` is True,
`no` is False, `unknown` is None (the module constant UNKNOWN). -/
inductive TriState where
  | yes
  | no
  | unknown
deriving DecidableEq, Repr

/-- The triple (availability, success, HTTP code) returned by get_status_code. -/
structure Outcome where
  availability : TriState
  success : TriState
  code : Option Nat
deriving DecidableEq, Repr

/-- One row of the url_cache table: availability, success and code columns,
each possibly NULL.  Python booleans are bound as the sqlite integers 0/1,
Python None as NULL. -/
structure StoredEntry where
  availability : Option Int
  success : Option Int
  code : Option Nat
deriving DecidableEq, Repr

/-- How a tri-state bound as a sqlite parameter is stored: True as 1,
False as 0, None as NULL. -/
def TriState.toSql : TriState → Option Int
  | .yes => some 1
  | .no => some 0
  | .unknown => none

/-- Python bool() applied to a value read back from sqlite: NULL (None)
and 0 are falsy, every other integer truthy. -/
def pyBool : Option Int → Bool
  | none => false
  | some n => n != 0

/-- The url_cache table: rows keyed by URL (primary key, at most one row
per URL). -/
abbrev Cache := List (String × StoredEntry)

/-- initialize_cache: CREATE TABLE IF NOT EXISTS — idempotent, leaves any
existing rows unchanged. -/
def init_cache (c : Cache) : Cache := c

/-- SELECT availability, success, code FROM url_cache WHERE url = ?. -/
def cacheRow (c : Cache) (url : String) : Option StoredEntry :=
  (c.find? (fun p => p.1 == url)).map (fun p => p.2)

/-- get_cached_status: fetch the row for url; when a row exists return
(bool(availability), bool(success), code), else None. -/
def get_cached_status (url : String) (c : Cache) : Option Outcome :=
  (cacheRow c url).map (fun e =>
    { availability := if pyBool e.availability then .yes else .no
      success := if pyBool e.success then .yes else .no
      code := e.code })

/-- update_cache: REPLACE INTO url_cache — upsert the row for url. -/
def update_cache (url : String) (availability success : TriState)
    (code : Option Nat) (c : Cache) : Cache :=
  (url, ⟨availability.toSql, success.toSql, code⟩) :: c.filter (fun p => p.1 != url)

/-- A Python value held in an options dict. -/
inductive OptVal where
  | b (v : Bool)
  | i (v : Int)
  | strs (v : List String)
  | s (v : Option String)
deriving DecidableEq, Repr

/-- An options dict: string keys with at most one binding each. -/
abbrev Opts := List (String × OptVal)

/-- The module-level DEFAULT_OPTS table. -/
def DEFAULT_OPTS : Opts :=
  [("archive", .b true),
   ("classes", .strs []),
   ("labels", .b false),
   ("timeout_duration_ms", .i 1000),
   ("timeout_is_error", .b false),
   ("cache_file", .s none)]

/-- Python dict access: opts[name] when `name in opts`, else absent
(a bare opts[name] on an absent key raises KeyError, modelled as none). -/
def dictGet (m : Opts) (name : String) : Option OptVal :=
  (m.find? (fun p => p.1 == name)).map (fun p => p.2)

/-- get_opt: opts[name] if name in opts else DEFAULT_OPTS[name]. -/
def get_opt (opts : Opts) (name : String) : Option OptVal :=
  match dictGet opts name with
  | some v => some v
  | none => dictGet DEFAULT_OPTS name

/-- Python truthiness of an option value. -/
def OptVal.truthy : OptVal → Bool
  | .b v => v
  | .i v => v != 0
  | .strs v => !v.isEmpty
  | .s v => match v with
    | none => false
    | some t => t != ""

/-- Truthiness of a possibly-absent option value (absent is falsy). -/
def optTruthy : Option OptVal → Bool
  | none => false
  | some v => v.truthy

/-- The list of strings held by a possibly-absent option value. -/
def optStrs : Option OptVal → List String
  | some (.strs v) => v
  | _ => []

/-- Result of requests.get on one URL: a response carrying a status code,
a Timeout, or another RequestException. -/
inductive HttpResult where
  | response (status : Nat)
  | timeout
  | failure
deriving DecidableEq, Repr

/-- The external HTTP capability: the GET outcome for each URL. -/
abbrev Http := String → HttpResult

/-- Python truthiness of the cache_file argument (None or a path string). -/
def cacheEnabled : Option String → Bool
  | none => false
  | some p => p != ""

/-- get_status_code: when caching is enabled and a row exists for url,
return the cached triple; otherwise read opts[timeout_duration_ms]
(KeyError, modelled as none, when the key is absent — the source indexes
opts directly here instead of calling get_opt), issue the GET, classify
the result, persist it when caching is enabled, and return the outcome
together with the updated cache. -/
def get_status_code (http : Http) (url : String) (opts : Opts)
    (cache_file : Option String) (c : Cache) : Option (Outcome × Cache) :=
  let cached := if cacheEnabled cache_file then get_cached_status url c else none
  match cached with
  | some o => some (o, c)
  | none =>
    match dictGet opts "timeout_duration_ms" with
    | none => none
    | some _ =>
      let o : Outcome :=
        match http url with
        | .response code => ⟨.yes, if code == 200 then .yes else .no, some code⟩
        | .timeout => ⟨.no, .unknown, none⟩
        | .failure => ⟨.unknown, .no, none⟩
      let c1 := if cacheEnabled cache_file then
          update_cache url o.availability o.success o.code c
        else c
      some (o, c1)

/-- A node of the parsed document tree (the external markup capability):
an element with a tag name, an optional href attribute, a class-attribute
list and ordered children, or a text node.  Attributes other than href
and class play no role in the source and are not represented. -/
inductive Node where
  | elem (tag : String) (href : Option String) (classes : List String) (children : List Node)
  | text (s : String)
deriving BEq, Repr

/-- add_class: node[class] = node.get(class, []) + [name]. -/
def add_class (n : Node) (name : String) : Node :=
  match n with
  | .elem t h cls ch => .elem t h (cls ++ [name]) ch
  | .text s => .text s

/-- The ARCHIVE_URL template with the url substituted. -/
def archive_url (url : String) : String :=
  "http://web.archive.org/web/*/" ++ url

/-- change_to_archive: rewrite anchor[href] to the archive template applied
to the current href. -/
def change_to_archive (n : Node) : Node :=
  match n with
  | .elem t (some src) cls ch => .elem t (some (archive_url src)) cls ch
  | n => n

/-- The span built from SPAN_DANGER / SPAN_WARNING with the given text
appended into it. -/
def labelSpan (style : String) (txt : String) : Node :=
  .elem "span" none ["label", style] [.text txt]

/-- on_connection_error: append each configured class, build the danger
label carrying the text "not available" when labels is enabled (inserted
by the caller immediately after the anchor in its parent), and rewrite
the href to the archive URL when archive is enabled. -/
def on_connection_error (anchor : Node) (opts : Opts) : Node × Option Node :=
  let a1 := (optStrs (get_opt opts "classes")).foldl add_class anchor
  let lbl := if optTruthy (get_opt opts "labels") then
      some (labelSpan "label-danger" "not available")
    else none
  let a2 := if optTruthy (get_opt opts "archive") then change_to_archive a1 else a1
  (a2, lbl)

/-- on_access_error: as on_connection_error but the label is the warning
span carrying str(code). -/
def on_access_error (anchor : Node) (code : Nat) (opts : Opts) : Node × Option Node :=
  let a1 := (optStrs (get_opt opts "classes")).foldl add_class anchor
  let lbl := if optTruthy (get_opt opts "labels") then
      some (labelSpan "label-warning" (toString code))
    else none
  let a2 := if optTruthy (get_opt opts "archive") then change_to_archive a1 else a1
  (a2, lbl)

/-- Python `not` of a tri-state: not False and not None are both True. -/
def TriState.pyNot : TriState → Bool
  | .yes => false
  | .no => true
  | .unknown => true

/-- Python truthiness of the code variable (None falsy, 0 falsy). -/
def codeTruthy : Option Nat → Bool
  | none => false
  | some n => n != 0

/-- Which annotator the per-anchor branch of content_object_init calls. -/
inductive Annot where
  | connError
  | accessError (code : Nat)
  | skip
deriving DecidableEq, Repr

/-- The per-anchor branch structure of content_object_init: when avail is
falsy, call on_connection_error iff timeout_is_error or success == UNKNOWN
and continue; else when success is falsy and code truthy, call
on_access_error with the code; else do nothing. -/
def classifyAnnot (opts : Opts) (o : Outcome) : Annot :=
  if o.availability.pyNot then
    if optTruthy (get_opt opts "timeout_is_error") || o.success == .unknown then
      .connError
    else .skip
  else if o.success.pyNot && codeTruthy o.code then
    .accessError (o.code.getD 0)
  else .skip

/-- Apply the chosen annotator to the anchor: the mutated anchor and the
label node to insert immediately after it, if any. -/
def applyAnnot (anchor : Node) (opts : Opts) : Annot → Node × Option Node
  | .connError => on_connection_error anchor opts
  | .accessError code => on_access_error anchor code opts
  | .skip => (anchor, none)

/-- The annotation step performed on one checked anchor given its outcome. -/
def dispatch (opts : Opts) (anchor : Node) (o : Outcome) : Node × Option Node :=
  applyAnnot anchor opts (classifyAnnot opts o)

/-- Python str.startswith on the underlying character sequences. -/
def strLeads : List Char → List Char → Bool
  | [], _ => true
  | _ :: _, [] => false
  | a :: as, b :: bs => a == b && strLeads as bs

/-- url.startswith(pre). -/
def pyStartsWith (s pre : String) : Bool := strLeads pre.data s.data

/-- The anchor filter of the enumeration loop: tag is a or object. -/
def isAnchorTag (t : String) : Bool := t == "a" || t == "object"

/-- The href filter of the loop: not skipped means the href starts with
http and, when siteurl is truthy (non-empty), does not start with siteurl. -/
def hrefChecked (siteurl url : String) : Bool :=
  pyStartsWith url "http" && !(siteurl != "" && pyStartsWith url siteurl)

/-- Whether a node is an anchor the loop will classify: an a/object
element carrying an href that passes the href filter. -/
def checkedAnchor (siteurl : String) : Node → Bool
  | .elem t (some url) _ _ => isAnchorTag t && hrefChecked siteurl url
  | _ => false

mutual

/-- Whether a subtree contains any anchor the loop will classify. -/
def hasChecked (siteurl : String) : Node → Bool
  | .text _ => false
  | .elem t h cls ch => checkedAnchor siteurl (.elem t h cls ch) || hasCheckedL siteurl ch

/-- Whether any subtree in the list contains an anchor the loop will classify. -/
def hasCheckedL (siteurl : String) : List Node → Bool
  | [] => false
  | n :: ns => hasChecked siteurl n || hasCheckedL siteurl ns

end

/-- The fixed per-pass context of the enumeration loop. -/
structure Env where
  http : Http
  siteurl : String
  opts : Opts
  cache_file : Option String

mutual

/-- Process one node in document order.  An anchor the loop classifies is
annotated via dispatch (yielding the mutated anchor plus the label node
inserted immediately after it); its descendants, which occur later in the
find_all enumeration, are then processed with the updated cache.  none
propagates an uncaught exception (the KeyError of get_status_code). -/
def processNode (env : Env) : Node → Cache → Option (List Node × Cache)
  | .text s, c => some ([.text s], c)
  | .elem t h cls ch, c =>
    match h with
    | some url =>
      if isAnchorTag t && hrefChecked env.siteurl url then
        match get_status_code env.http url env.opts env.cache_file c with
        | none => none
        | some (o, c1) =>
          match processList env ch c1 with
          | none => none
          | some (ch1, c2) =>
            match dispatch env.opts (Node.elem t (some url) cls ch1) o with
            | (a1, some l) => some ([a1, l], c2)
            | (a1, none) => some ([a1], c2)
      else
        match processList env ch c with
        | none => none
        | some (ch1, c1) => some ([Node.elem t (some url) cls ch1], c1)
    | none =>
      match processList env ch c with
      | none => none
      | some (ch1, c1) => some ([Node.elem t none cls ch1], c1)

/-- Process a sibling list left to right, threading the cache and
concatenating the produced nodes (each node yields itself possibly
followed by an inserted label). -/
def processList (env : Env) : List Node → Cache → Option (List Node × Cache)
  | [], c => some ([], c)
  | n :: ns, c =>
    match processNode env n c with
    | none => none
    | some (outs, c1) =>
      match processList env ns c1 with
      | none => none
      | some (rest, c2) => some (outs ++ rest, c2)

end

/-- The host settings consumed by the callback: DEADLINK_VALIDATION,
SITEURL and DEADLINK_OPTS, each possibly absent from the mapping. -/
structure Settings where
  DEADLINK_VALIDATION : Option Bool
  SITEURL : Option String
  DEADLINK_OPTS : Option Opts

/-- The content object handed to the callback: its _content (possibly
None) and its settings. -/
structure Instance where
  _content : Option String
  settings : Settings

/-- user_enabled(instance, opt) for opt = DEADLINK_VALIDATION: the key is
present in instance.settings and its value is truthy. -/
def user_enabled (inst : Instance) : Bool :=
  match inst.settings.DEADLINK_VALIDATION with
  | none => false
  | some v => v

/-- The external markup capability: parse a string into a forest of
nodes, serialize a forest back into a string. -/
structure Markup where
  parse : String → List Node
  serialize : List Node → String

/-- opts.get(cache_file): None when the key is absent, else the stored
path value.  A value outside the data model (not None and not a string)
is treated as disabled. -/
def getCacheFile (opts : Opts) : Option String :=
  match dictGet opts "cache_file" with
  | some (.s v) => v
  | _ => none

/-- content_object_init: the per-document callback.  Exits untouched when
_content is None or DEADLINK_VALIDATION is absent/falsy; otherwise
resolves siteurl, opts and cache_file, initializes the cache when
enabled, parses the markup, runs the enumeration loop, and replaces
_content with the serialization of the processed tree.  none propagates
an uncaught exception aborting the pass. -/
def content_object_init (mk : Markup) (http : Http) (inst : Instance) (c : Cache) :
    Option (Instance × Cache) :=
  match inst._content with
  | none => some (inst, c)
  | some raw =>
    if !user_enabled inst then some (inst, c)
    else
      let siteurl := inst.settings.SITEURL.getD ""
      let opts := inst.settings.DEADLINK_OPTS.getD DEFAULT_OPTS
      let cache_file := getCacheFile opts
      let c0 := if cacheEnabled cache_file then init_cache c else c
      match processList ⟨http, siteurl, opts, cache_file⟩ (mk.parse raw) c0 with
      | none => none
      | some (ns, c1) => some ({ inst with _content := some (mk.serialize ns) }, c1)

/-- Observable: the class-attribute list of a node. -/
def nodeClasses : Node → List String
  | .elem _ _ cls _ => cls
  | .text _ => []

/-- Observable: the href attribute of a node. -/
def nodeHref : Node → Option String
  | .elem _ h _ _ => h
  | .text _ => none

/-- A stored cache row is well formed when its code column is non-NULL
exactly when its availability column reads back truthy — the shape of
every row update_cache ever writes. -/
def entryWF (e : StoredEntry) : Prop := e.code ≠ none ↔ pyBool e.availability = true

/-- Every row of the cache is well formed. -/
def cacheWF (c : Cache) : Prop := ∀ p ∈ c, entryWF p.2

/-!  Helper lemmas shared by the claim theorems. -/

/-- get_opt ignores a leading binding for a different key. -/
theorem get_opt_cons_ne (k : String) (v : OptVal) (opts : Opts) (name : String)
    (h : (k == name) = false) :
    get_opt ((k, v) :: opts) name = get_opt opts name := by
  simp [get_opt, dictGet, List.find?, h]

/-- on_connection_error does not read a timeout_is_error binding. -/
theorem on_connection_error_cons_flag (a : Node) (v : OptVal) (opts : Opts) :
    on_connection_error a (("timeout_is_error", v) :: opts) = on_connection_error a opts := by
  simp [on_connection_error,
    get_opt_cons_ne "timeout_is_error" v opts "classes" (by decide),
    get_opt_cons_ne "timeout_is_error" v opts "labels" (by decide),
    get_opt_cons_ne "timeout_is_error" v opts "archive" (by decide)]

/-- Folding add_class over a class list appends it to the class attribute. -/
theorem foldl_add_class (cs : List String) (t : String) (h : Option String)
    (cls : List String) (ch : List Node) :
    cs.foldl add_class (Node.elem t h cls ch) = Node.elem t h (cls ++ cs) ch := by
  induction cs generalizing cls with
  | nil => simp
  | cons x xs ih =>
    have hstep : List.foldl add_class (Node.elem t h cls ch) (x :: xs)
        = List.foldl add_class (Node.elem t h (cls ++ [x]) ch) xs := rfl
    rw [hstep, ih]
    simp

mutual

/-- A subtree containing no checked anchor passes through the enumeration
loop untouched, with the cache unread and unwritten. -/
theorem processNode_skip (env : Env) : (n : Node) → (c : Cache) →
    hasChecked env.siteurl n = false → processNode env n c = some ([n], c)
  | .text _, _, _ => rfl
  | .elem t h cls ch, c, hf => by
    rw [hasChecked] at hf
    have hna : checkedAnchor env.siteurl (.elem t h cls ch) = false :=
      (Bool.or_eq_false_iff.mp hf).1
    have hch : hasCheckedL env.siteurl ch = false :=
      (Bool.or_eq_false_iff.mp hf).2
    have hrec := processList_skip env ch c hch
    cases h with
    | none => simp [processNode, hrec]
    | some url =>
      have hcond : (isAnchorTag t && hrefChecked env.siteurl url) = false := by
        simpa [checkedAnchor] using hna
      simp [processNode, hcond, hrec]

/-- List form of processNode_skip. -/
theorem processList_skip (env : Env) : (ns : List Node) → (c : Cache) →
    hasCheckedL env.siteurl ns = false → processList env ns c = some (ns, c)
  | [], _, _ => rfl
  | n :: ns, c, hf => by
    rw [hasCheckedL] at hf
    have h1 : hasChecked env.siteurl n = false := (Bool.or_eq_false_iff.mp hf).1
    have h2 : hasCheckedL env.siteurl ns = false := (Bool.or_eq_false_iff.mp hf).2
    simp [processList, processNode_skip env n c h1, processList_skip env ns c h2]

end

/-- A cache-served outcome of a well-formed cache carries a code exactly
when it is reachable. -/
theorem get_cached_status_wf (url : String) (c : Cache) (o : Outcome)
    (hwf : cacheWF c) (h : get_cached_status url c = some o) :
    o.code ≠ none ↔ o.availability = TriState.yes := by
  unfold get_cached_status at h
  cases hr : cacheRow c url with
  | none => rw [hr] at h; cases h
  | some e =>
    rw [hr] at h
    obtain ⟨p, hp, hpe⟩ : ∃ p, List.find? (fun p => p.1 == url) c = some p ∧ p.2 = e := by
      unfold cacheRow at hr
      obtain ⟨p, hp1, hp2⟩ := Option.map_eq_some'.mp hr
      exact ⟨p, hp1, hp2⟩
    have hwe : entryWF e := hpe ▸ hwf p (List.mem_of_find?_eq_some hp)
    have ho : o = ⟨if pyBool e.availability then .yes else .no,
        if pyBool e.success then .yes else .no, e.code⟩ := (Option.some_inj.mp h).symm
    subst ho
    cases hb : pyBool e.availability with
    | true => simpa [hb] using hwe.mpr hb
    | false =>
      have : e.code = none := by
        by_contra hcn
        exact absurd (hwe.mp hcn) (by simp [hb])
      simp [hb, this]

/-- update_cache preserves cache well-formedness when the new row is
well formed. -/
theorem cacheWF_update (url : String) (a s : TriState) (code : Option Nat)
    (c : Cache) (hwf : cacheWF c) (he : entryWF ⟨a.toSql, s.toSql, code⟩) :
    cacheWF (update_cache url a s code c) := by
  intro p hp
  unfold update_cache at hp
  cases hp with
  | head => exact he
  | tail _ h => exact hwf p (List.mem_of_mem_filter h)

/-!  Claim theorems. -/

/-- Claim C1, counterexample: with caching enabled, a cache hit does not
return the persisted outcome unchanged.  A timeout outcome (unreachable,
unknown, none) is persisted as the row (0, NULL, NULL) but served back as
(unreachable, not-ok, none) because get_cached_status coerces the NULLs
with bool(); the first and second anchors to the URL then annotate
differently under the default options: the first takes the
connection-error path, the second is skipped. -/
theorem c1_cache_roundtrip_counterexample :
    get_status_code (fun _ => .timeout) "http://u.com" DEFAULT_OPTS (some "c.db") [] =
      some (⟨.no, .unknown, none⟩, [("http://u.com", ⟨some 0, none, none⟩)]) ∧
    get_status_code (fun _ => .timeout) "http://u.com" DEFAULT_OPTS (some "c.db")
      [("http://u.com", ⟨some 0, none, none⟩)] =
      some (⟨.no, .no, none⟩, [("http://u.com", ⟨some 0, none, none⟩)]) ∧
    (Outcome.mk .no .no none ≠ Outcome.mk .no .unknown none) ∧
    classifyAnnot DEFAULT_OPTS ⟨.no, .unknown, none⟩ = .connError ∧
    classifyAnnot DEFAULT_OPTS ⟨.no, .no, none⟩ = .skip := by
  refine ⟨by decide, by decide, by decide, by decide, by decide⟩

/-- Claim C1, amended: a cache-hit lookup returns the persisted triple
with NULL (unknown) availability or success read back as False
(unreachable / not-ok); when neither persisted field is unknown the
round trip is exact, so only then does a second anchor to the same URL
behave identically to the first. -/
theorem c1_cache_roundtrip_amended (url : String) (a s : TriState)
    (code : Option Nat) (c : Cache) (ha : a ≠ .unknown) (hs : s ≠ .unknown) :
    get_cached_status url (update_cache url a s code c) = some ⟨a, s, code⟩ := by
  have hrow : cacheRow (update_cache url a s code c) url =
      some ⟨a.toSql, s.toSql, code⟩ := by
    simp [cacheRow, update_cache, List.find?]
  cases a with
  | unknown => exact absurd rfl ha
  | yes =>
    cases s with
    | unknown => exact absurd rfl hs
    | yes => simp [get_cached_status, hrow, pyBool, TriState.toSql]
    | no => simp [get_cached_status, hrow, pyBool, TriState.toSql]
  | no =>
    cases s with
    | unknown => exact absurd rfl hs
    | yes => simp [get_cached_status, hrow, pyBool, TriState.toSql]
    | no => simp [get_cached_status, hrow, pyBool, TriState.toSql]

/-- Claim C1, witness for the amended theorem at a concrete input. -/
theorem c1_cache_roundtrip_amended_witness :
    TriState.yes ≠ TriState.unknown ∧ TriState.no ≠ TriState.unknown ∧
    get_cached_status "http://u.com"
      (update_cache "http://u.com" .yes .no (some 404) []) =
      some ⟨.yes, .no, some 404⟩ :=
  ⟨by decide, by decide,
    c1_cache_roundtrip_amended "http://u.com" .yes .no (some 404) []
      (by decide) (by decide)⟩

/-- Claim C2, counterexample: for a non-timeout transport failure
(availability unknown, success not-ok) under options with the default
timeout_is_error (false) and classes = [dead], the processor does not
call on_connection_error — the branch classifies as skip and the anchor
is returned untouched, while on_connection_error would have added the
class. -/
theorem c2_conn_error_counterexample :
    classifyAnnot [("classes", .strs ["dead"])] ⟨.unknown, .no, none⟩ =
      .skip ∧
    dispatch [("classes", .strs ["dead"])]
      (.elem "a" (some "http://u.com") [] []) ⟨.unknown, .no, none⟩ =
      (.elem "a" (some "http://u.com") [] [], none) ∧
    nodeClasses (on_connection_error (.elem "a" (some "http://u.com") [] [])
      [("classes", .strs ["dead"])]).1 ≠
      nodeClasses (.elem "a" (some "http://u.com") [] []) := by
  refine ⟨by decide, rfl, by decide⟩

/-- Claim C2, amended: for an anchor classified as a non-timeout transport
failure (availability unknown, success not-ok), on_connection_error is
invoked exactly when the timeout_is_error option is truthy; with the flag
falsy (its default) the anchor is left untouched. -/
theorem c2_conn_error_amended (opts : Opts) (a : Node) :
    dispatch opts a ⟨.unknown, .no, none⟩ =
      (if optTruthy (get_opt opts "timeout_is_error") then on_connection_error a opts
       else (a, none)) := by
  cases hflag : optTruthy (get_opt opts "timeout_is_error") <;>
    simp [dispatch, classifyAnnot, TriState.pyNot, applyAnnot, hflag]

/-- Claim C3: a timeout outcome (unreachable, unknown, no code) always
takes the connection-error path — the annotation is applied for every
configuration, and overriding timeout_is_error to False or to True gives
identical results. -/
theorem c3_timeout_flag_irrelevant (opts : Opts) (a : Node) :
    dispatch opts a ⟨.no, .unknown, none⟩ = on_connection_error a opts ∧
    dispatch (("timeout_is_error", .b false) :: opts) a ⟨.no, .unknown, none⟩ =
      dispatch (("timeout_is_error", .b true) :: opts) a ⟨.no, .unknown, none⟩ := by
  have hall : ∀ o : Opts, dispatch o a ⟨.no, .unknown, none⟩ = on_connection_error a o := by
    intro o
    simp [dispatch, classifyAnnot, TriState.pyNot, applyAnnot]
  refine ⟨hall opts, ?_⟩
  rw [hall (("timeout_is_error", .b false) :: opts),
    hall (("timeout_is_error", .b true) :: opts),
    on_connection_error_cons_flag, on_connection_error_cons_flag]

/-- Claim C4, code bug: get_opt does resolve a missing
timeout_duration_ms per-key to the default 1000, but get_status_code
indexes opts[timeout_duration_ms] directly instead of calling get_opt, so
on a cache miss an options dict lacking the key makes the classifier
raise KeyError (modelled as none) rather than use the default budget. -/
theorem c4_missing_timeout_key_bug :
    get_opt [("archive", .b false)] "timeout_duration_ms" = some (.i 1000) ∧
    get_status_code (fun _ => .response 200) "http://u.com"
      [("archive", .b false)] none [] = none := by
  refine ⟨by decide, by decide⟩

/-- Claim C5: every outcome get_status_code returns — freshly classified
or served from a well-formed cache — carries a status code exactly when
its availability is reachable, and the cache stays well formed, so the
invariant is maintained across a whole pass. -/
theorem c5_status_code_iff_reachable (http : Http) (url : String) (opts : Opts)
    (cf : Option String) (c : Cache) (o : Outcome) (c1 : Cache)
    (hwf : cacheWF c) (h : get_status_code http url opts cf c = some (o, c1)) :
    (o.code ≠ none ↔ o.availability = TriState.yes) ∧ cacheWF c1 := by
  unfold get_status_code at h
  cases hce : cacheEnabled cf <;> rw [hce] at h <;>
    simp only [Bool.false_eq_true, if_false, if_true, eq_self_iff_true, if_pos, if_neg] at h
  case false =>
    cases hd : dictGet opts "timeout_duration_ms" <;> rw [hd] at h
    case none => cases h
    case some v =>
      cases hh : http url <;> rw [hh] at h
      case response code =>
        simp only [Option.some_inj, Prod.mk.injEq] at h
        rw [← h.1, ← h.2]
        exact ⟨by simp, hwf⟩
      case timeout =>
        simp only [Option.some_inj, Prod.mk.injEq] at h
        rw [← h.1, ← h.2]
        exact ⟨by simp, hwf⟩
      case failure =>
        simp only [Option.some_inj, Prod.mk.injEq] at h
        rw [← h.1, ← h.2]
        exact ⟨by simp, hwf⟩
  case true =>
    cases hg : get_cached_status url c <;> rw [hg] at h
    case some o' =>
      simp only [Option.some_inj, Prod.mk.injEq] at h
      rw [← h.1, ← h.2]
      exact ⟨get_cached_status_wf url c o' hwf hg, hwf⟩
    case none =>
      cases hd : dictGet opts "timeout_duration_ms" <;> rw [hd] at h
      case none => cases h
      case some v =>
        cases hh : http url <;> rw [hh] at h
        case response code =>
          simp only [Option.some_inj, Prod.mk.injEq] at h
          rw [← h.1, ← h.2]
          refine ⟨by simp, cacheWF_update url _ _ _ c hwf ?_⟩
          simp [entryWF, pyBool, TriState.toSql]
        case timeout =>
          simp only [Option.some_inj, Prod.mk.injEq] at h
          rw [← h.1, ← h.2]
          refine ⟨by simp, cacheWF_update url _ _ _ c hwf ?_⟩
          simp [entryWF, pyBool, TriState.toSql]
        case failure =>
          simp only [Option.some_inj, Prod.mk.injEq] at h
          rw [← h.1, ← h.2]
          refine ⟨by simp, cacheWF_update url _ _ _ c hwf ?_⟩
          simp [entryWF, pyBool, TriState.toSql]

/-- Claim C5, witness at a concrete input: empty cache, a 404 response. -/
theorem c5_status_code_iff_reachable_witness :
    cacheWF [] ∧
    (((Outcome.mk .yes .no (some 404)).code ≠ none ↔
        (Outcome.mk .yes .no (some 404)).availability = TriState.yes) ∧
      cacheWF []) :=
  ⟨(by intro p hp; cases hp),
    c5_status_code_iff_reachable (fun _ => .response 404) "http://u.com"
      DEFAULT_OPTS none [] ⟨.yes, .no, some 404⟩ [] (by intro p hp; cases hp) rfl⟩

/-- Claim C6, counterexample: with SITEURL the empty string every href
starts with SITEURL, yet an external anchor is still checked and mutated:
Python truthiness skips the siteurl test, so the 404 classification runs
(writing a cache row) and the archive rewrite changes the href. -/
theorem c6_internal_skip_counterexample :
    pyStartsWith "http://u.com" "" = true ∧
    processNode ⟨fun _ => .response 404, "", DEFAULT_OPTS, some "c.db"⟩
      (.elem "a" (some "http://u.com") [] []) [] =
      some ([.elem "a" (some (archive_url "http://u.com")) [] []],
        [("http://u.com", ⟨some 1, some 0, some 404⟩)]) ∧
    archive_url "http://u.com" ≠ "http://u.com" := by
  refine ⟨by decide, rfl, by decide⟩

/-- Claim C6, amended: when SITEURL is non-empty, an anchor whose href
starts with SITEURL is never checked or mutated — the node comes back
unchanged and the cache untouched, for every http capability — provided
no nested anchor below it qualifies.  With SITEURL empty the internal
filter is inactive and only the http-prefix filter applies. -/
theorem c6_internal_skip_amended (http : Http) (siteurl : String) (opts : Opts)
    (cf : Option String) (t url : String) (cls : List String) (ch : List Node)
    (c : Cache) (hs : siteurl ≠ "") (hurl : pyStartsWith url siteurl = true)
    (hch : hasCheckedL siteurl ch = false) :
    processNode ⟨http, siteurl, opts, cf⟩ (.elem t (some url) cls ch) c =
      some ([.elem t (some url) cls ch], c) := by
  apply processNode_skip
  show hasChecked siteurl (.elem t (some url) cls ch) = false
  rw [hasChecked]
  have hne : (siteurl != "") = true := by simpa using hs
  have hrc : hrefChecked siteurl url = false := by
    simp [hrefChecked, hne, hurl]
  simp [checkedAnchor, hrc, hch]

/-- Claim C6, witness for the amended theorem at a concrete input. -/
theorem c6_internal_skip_amended_witness :
    ("http://me.org" : String) ≠ "" ∧
    pyStartsWith "http://me.org/p" "http://me.org" = true ∧
    hasCheckedL "http://me.org" [] = false ∧
    processNode ⟨fun _ => .timeout, "http://me.org", DEFAULT_OPTS, none⟩
      (.elem "a" (some "http://me.org/p") [] []) [] =
      some ([.elem "a" (some "http://me.org/p") [] []], []) :=
  ⟨(by decide), (by decide), rfl,
    c6_internal_skip_amended (fun _ => .timeout) "http://me.org" DEFAULT_OPTS none
      "a" "http://me.org/p" [] [] [] (by decide) (by decide) rfl⟩

/-- Claim C7: a checked anchor whose URL answers HTTP 404 is classified
(reachable, not-ok, 404) and receives the access-error annotation: the
configured classes are appended after the existing ones, the href is
rewritten to the archive template around the original href (archive
enabled), and a warning label span carrying the text "404" is inserted
immediately after the anchor (labels enabled). -/
theorem c7_access_error_404 (http : Http) (siteurl url t : String) (opts : Opts)
    (v : OptVal) (cls cs : List String) (ch : List Node) (c : Cache)
    (h404 : http url = .response 404)
    (htag : isAnchorTag t = true)
    (hurl : hrefChecked siteurl url = true)
    (hto : dictGet opts "timeout_duration_ms" = some v)
    (hcs : get_opt opts "classes" = some (.strs cs))
    (hlab : optTruthy (get_opt opts "labels") = true)
    (harc : optTruthy (get_opt opts "archive") = true)
    (hch : hasCheckedL siteurl ch = false) :
    get_status_code http url opts none c = some (⟨.yes, .no, some 404⟩, c) ∧
    processNode ⟨http, siteurl, opts, none⟩ (.elem t (some url) cls ch) c =
      some ([.elem t (some (archive_url url)) (cls ++ cs) ch,
             labelSpan "label-warning" "404"], c) := by
  have hgs : get_status_code http url opts none c = some (⟨.yes, .no, some 404⟩, c) := by
    unfold get_status_code
    rw [hto, h404]
    simp [cacheEnabled]
  refine ⟨hgs, ?_⟩
  have hpl := processList_skip ⟨http, siteurl, opts, none⟩ ch c hch
  have hda : dispatch opts (Node.elem t (some url) cls ch) ⟨.yes, .no, some 404⟩ =
      (Node.elem t (some (archive_url url)) (cls ++ cs) ch,
        some (labelSpan "label-warning" "404")) := by
    have hcl : classifyAnnot opts ⟨.yes, .no, some 404⟩ = .accessError 404 := rfl
    have hts : toString (404 : Nat) = "404" := rfl
    rw [dispatch, hcl]
    show on_access_error (Node.elem t (some url) cls ch) 404 opts = _
    rw [on_access_error]
    simp only [hcs, hlab, harc, optStrs, hts, if_true, foldl_add_class, change_to_archive]
  rw [processNode, htag, hurl]
  simp only [Bool.and_self, if_true, hgs, hpl, hda]

/-- Claim C7, witness at a concrete input. -/
theorem c7_access_error_404_witness :
    ((fun _ => HttpResult.response 404) : Http) "http://u.com" = .response 404 ∧
    isAnchorTag "a" = true ∧
    hrefChecked "http://me.org" "http://u.com" = true ∧
    dictGet [("classes", .strs ["dead"]), ("labels", .b true), ("timeout_duration_ms", .i 250)] "timeout_duration_ms" =
      some (.i 250) ∧
    get_opt [("classes", .strs ["dead"]), ("labels", .b true), ("timeout_duration_ms", .i 250)] "classes" =
      some (.strs ["dead"]) ∧
    optTruthy (get_opt [("classes", .strs ["dead"]), ("labels", .b true), ("timeout_duration_ms", .i 250)] "labels") = true ∧
    optTruthy (get_opt [("classes", .strs ["dead"]), ("labels", .b true), ("timeout_duration_ms", .i 250)] "archive") = true ∧
    hasCheckedL "http://me.org" [] = false ∧
    (get_status_code (fun _ => .response 404) "http://u.com"
        [("classes", .strs ["dead"]), ("labels", .b true), ("timeout_duration_ms", .i 250)] none [] =
      some (⟨.yes, .no, some 404⟩, []) ∧
    processNode ⟨fun _ => .response 404, "http://me.org",
        [("classes", .strs ["dead"]), ("labels", .b true), ("timeout_duration_ms", .i 250)],
        none⟩
        (.elem "a" (some "http://u.com") ["old"] []) [] =
      some ([.elem "a" (some (archive_url "http://u.com")) (["old"] ++ ["dead"]) [],
             labelSpan "label-warning" "404"], [])) := by
  refine ⟨rfl, rfl, (by decide), (by decide), (by decide), (by decide), (by decide), rfl, ?_⟩
  exact c7_access_error_404 (fun _ => .response 404) "http://me.org" "http://u.com" "a"
    [("classes", .strs ["dead"]), ("labels", .b true), ("timeout_duration_ms", .i 250)]
    (.i 250) ["old"] ["dead"] [] []
    rfl rfl (by decide) (by decide) (by decide) (by decide) (by decide) rfl

/-- Claim C8: when _content is None or DEADLINK_VALIDATION is absent or
falsy, the callback does nothing: the instance (hence its stored content)
and the cache come back unchanged, for every markup and http capability,
so no configuration is resolved, no cache is touched and no URL checked. -/
theorem c8_guard_noop (mk : Markup) (http : Http) (inst : Instance) (c : Cache)
    (h : inst._content = none ∨ user_enabled inst = false) :
    content_object_init mk http inst c = some (inst, c) := by
  unfold content_object_init
  cases h with
  | inl h => rw [h]
  | inr h =>
    cases hc : inst._content with
    | none => rfl
    | some raw => rw [h]; simp

/-- Claim C8, witness at a concrete input (absent content). -/
theorem c8_guard_noop_witness :
    ((⟨none, ⟨some true, none, none⟩⟩ : Instance)._content = none ∨
      user_enabled ⟨none, ⟨some true, none, none⟩⟩ = false) ∧
    content_object_init ⟨fun _ => [], fun _ => ""⟩ (fun _ => .timeout)
      ⟨none, ⟨some true, none, none⟩⟩ [] =
      some (⟨none, ⟨some true, none, none⟩⟩, []) :=
  ⟨Or.inl rfl, c8_guard_noop ⟨fun _ => [], fun _ => ""⟩ (fun _ => .timeout)
    ⟨none, ⟨some true, none, none⟩⟩ [] (Or.inl rfl)⟩

/-- Claim C9: one anchor triggers at most one annotation call — the
dispatch of an outcome is exactly one of: the untouched anchor (skip),
on_connection_error alone, or on_access_error alone, the three tags being
mutually exclusive constructors — and the ok outcome (reachable, ok, 200)
triggers neither annotator. -/
theorem c9_at_most_one_annot (opts : Opts) (a : Node) (o : Outcome) :
    (dispatch opts a o = (a, none) ∧ classifyAnnot opts o = .skip ∨
     dispatch opts a o = on_connection_error a opts ∧
       classifyAnnot opts o = .connError ∨
     ∃ k, dispatch opts a o = on_access_error a k opts ∧
       classifyAnnot opts o = .accessError k) ∧
    dispatch opts a ⟨.yes, .yes, some 200⟩ = (a, none) := by
  constructor
  · cases hc : classifyAnnot opts o with
    | skip => exact Or.inl ⟨by simp [dispatch, hc, applyAnnot], rfl⟩
    | connError => exact Or.inr (Or.inl ⟨by simp [dispatch, hc, applyAnnot], rfl⟩)
    | accessError k =>
      exact Or.inr (Or.inr ⟨k, by simp [dispatch, hc, applyAnnot], rfl⟩)
  · rfl

/-- Claim C10: whenever the guard passes, _content is replaced by the
serialization of the parsed tree even when no anchor qualifies and
nothing is annotated — the output is serialize(parse(input)), which the
markup capability need not map back to the input. -/
theorem c10_content_always_reserialized (mk : Markup) (http : Http)
    (inst : Instance) (raw : String) (c : Cache)
    (hc : inst._content = some raw) (hv : user_enabled inst = true)
    (hn : hasCheckedL (inst.settings.SITEURL.getD "") (mk.parse raw) = false) :
    content_object_init mk http inst c =
      some ({ inst with _content := some (mk.serialize (mk.parse raw)) }, c) := by
  unfold content_object_init
  rw [hc, hv]
  have hpl := processList_skip
    ⟨http, inst.settings.SITEURL.getD "", inst.settings.DEADLINK_OPTS.getD DEFAULT_OPTS,
      getCacheFile (inst.settings.DEADLINK_OPTS.getD DEFAULT_OPTS)⟩
    (mk.parse raw) c hn
  simp only [Bool.not_true, Bool.false_eq_true, if_false, init_cache, ite_self, hpl]

/-- Claim C10, witness: a concrete pass with no qualifying anchor still
rewrites the stored content to the capability's re-serialization. -/
theorem c10_content_always_reserialized_witness :
    ((⟨some "IN", ⟨some true, none, none⟩⟩ : Instance)._content = some "IN") ∧
    user_enabled ⟨some "IN", ⟨some true, none, none⟩⟩ = true ∧
    hasCheckedL ((⟨some "IN", ⟨some true, none, none⟩⟩ :
      Instance).settings.SITEURL.getD "") [Node.text "t"] = false ∧
    content_object_init ⟨fun _ => [Node.text "t"], fun _ => "OUT"⟩ (fun _ => .timeout)
      ⟨some "IN", ⟨some true, none, none⟩⟩ [] =
      some (⟨some "OUT", ⟨some true, none, none⟩⟩, []) :=
  ⟨rfl, rfl, rfl,
    c10_content_always_reserialized ⟨fun _ => [Node.text "t"], fun _ => "OUT"⟩
      (fun _ => .timeout) ⟨some "IN", ⟨some true, none, none⟩⟩ "IN" [] rfl rfl rfl⟩

end Deadlinks
